import Mathlib

/-!
Verification development for the Playwright web-automation test framework:
a shallow embedding of the OTP-retrieval utilities (utils/google_utils.py),
the session-bootstrap fixture (conftest.py, create_auth_state and auth_page),
the login page object (pages/dashbaord_page.py, NavBarLinks) and the
retrying click helper (pages/base_page.py, safe_click), together with
theorems settling the specification claims about them.
-/

namespace GoogleUtils

/-- Value of one character of the urlsafe base64 alphabet
(models the alphabet used by base64.urlsafe_b64decode). -/
def b64Val (c : Char) : Option Nat :=
  if 'A' ≤ c ∧ c ≤ 'Z' then some (c.toNat - 65)
  else if 'a' ≤ c ∧ c ≤ 'z' then some (c.toNat - 97 + 26)
  else if '0' ≤ c ∧ c ≤ '9' then some (c.toNat - 48 + 52)
  else if c = '-' then some 62
  else if c = '_' then some 63
  else none

/-- Turn groups of four 6-bit values into three bytes each; a trailing group
of three values yields two bytes and a trailing group of two values yields
one byte (the shape produced by stripping the padding of a padded input). -/
def b64Groups : List Nat → List Nat
  | a :: b :: c :: d :: rest =>
    (a * 4 + b / 16) :: ((b % 16) * 16 + c / 4) :: ((c % 4) * 64 + d) :: b64Groups rest
  | [a, b, c] => [a * 4 + b / 16, (b % 16) * 16 + c / 4]
  | [a, b] => [a * 4 + b / 16]
  | _ => []

/-- Decode a UTF-8 byte sequence into characters (valid sequences; the bodies
of this development are ASCII). Models bytes.decode of Python. -/
def utf8Chars : List Nat → List Char
  | [] => []
  | b :: rest =>
    if b < 128 then Char.ofNat b :: utf8Chars rest
    else if b < 192 then utf8Chars rest
    else if b < 224 then
      match rest with
      | c :: r2 => Char.ofNat ((b % 32) * 64 + c % 64) :: utf8Chars r2
      | [] => []
    else if b < 240 then
      match rest with
      | c :: d :: r3 => Char.ofNat ((b % 16) * 4096 + (c % 64) * 64 + d % 64) :: utf8Chars r3
      | _ => []
    else
      match rest with
      | c :: d :: e :: r4 =>
        Char.ofNat ((b % 8) * 262144 + (c % 64) * 4096 + (d % 64) * 64 + e % 64) :: utf8Chars r4
      | _ => []

/-- Models base64.urlsafe_b64decode(body_data).decode of google_utils.py on
well-formed input: strip padding, map the alphabet, regroup bits, decode UTF-8. -/
def decodeBody (s : String) : String :=
  ⟨utf8Chars (b64Groups ((s.data.filter (fun c => c ≠ '=')).filterMap b64Val))⟩

/-- One body part of a Gmail API message, as consumed by
extract_text_from_message: an optional mimeType key, the optional data field
of the body dictionary, and an optional parts key (absent key is none; a
present but empty list is some []). -/
inductive MsgPart : Type where
  | mk (mimeType : Option String) (data : Option String) (parts : Option (List MsgPart)) : MsgPart

def MsgPart.mimeType : MsgPart → Option String
  | .mk m _ _ => m

def MsgPart.data : MsgPart → Option String
  | .mk _ d _ => d

def MsgPart.subparts : MsgPart → Option (List MsgPart)
  | .mk _ _ ps => ps

/-- A message object returned by the Gmail API: the payload key may be absent. -/
structure GmailMsg where
  payload : Option MsgPart

mutual

/-- Embeds extract_text_from_message of google_utils.py on one payload part.
The parts key is tested for truthiness (absent key or empty list falls through
to the simple-body branch); when the message has parts the loop scans them and
the simple-body branch is never reached. -/
def extract_text_core : MsgPart → String
  | .mk _ d ps =>
    match ps with
    | some (q :: l) => scanParts (q :: l)
    | _ =>
      match d with
      | some bd => decodeBody bd
      | none => ""
termination_by p => sizeOf p

/-- The for-loop of extract_text_from_message: return the decoded data of the
first part whose mimeType is text/plain and whose body has data; otherwise,
when the part has a parts key, recurse into it and return a non-empty result. -/
def scanParts : List MsgPart → String
  | [] => ""
  | p :: rest =>
    if p.mimeType = some "text/plain" ∧ p.data.isSome = true then
      decodeBody (p.data.getD "")
    else
      scanRest p rest
termination_by l => sizeOf l

/-- The nested-parts branch of the loop body: recursion happens only when the
parts key is present, and an empty-string result lets the loop continue. -/
def scanRest (p : MsgPart) (rest : List MsgPart) : String :=
  match p.subparts with
  | some _ =>
    let r := extract_text_core p
    if r = "" then scanParts rest else r
  | none => scanParts rest
termination_by sizeOf p + sizeOf rest
decreasing_by
all_goals simp_wf
all_goals first
  | omega
  | (have hr : 0 < sizeOf rest := by cases rest <;> simp
     omega)
  | (have hp : 0 < sizeOf p := by cases p <;> simp
     omega)

end

/-- Embeds extract_text_from_message of google_utils.py: msg.get of the
payload key, an absent payload behaving like an empty dictionary. -/
def extract_text_from_message (msg : GmailMsg) : String :=
  match msg.payload with
  | some p => extract_text_core p
  | none => ""

/-- Python regex class \d restricted to its ASCII subset. -/
def isDigitChar (c : Char) : Bool := c.isDigit

/-- Python regex class \w (letter, digit or underscore), ASCII subset. -/
def isWordChar (c : Char) : Bool := c.isAlphanum || c = '_'

/-- Word boundary immediately before offset i, given that the character at i
is a word character: position 0, or a preceding non-word character. -/
def boundaryBefore (cs : List Char) (i : Nat) : Bool :=
  match i with
  | 0 => true
  | j + 1 =>
    match cs.get? j with
    | some c => !isWordChar c
    | none => true

/-- Word boundary immediately before offset j, given that the character at
j - 1 is a word character: end of input, or a non-word character at j. -/
def boundaryAfter (cs : List Char) (j : Nat) : Bool :=
  match cs.get? j with
  | some c => !isWordChar c
  | none => true

/-- The fixed-length pattern of extract_otp matches at offset i: six digit
characters enclosed in word boundaries. -/
def otpMatchAt (cs : List Char) (i : Nat) : Bool :=
  decide (i + 6 ≤ cs.length) &&
  ((cs.drop i).take 6).all isDigitChar &&
  boundaryBefore cs i &&
  boundaryAfter cs (i + 6)

/-- re.search of the pattern of extract_otp: the match at the least offset
(the pattern has fixed length six, so leftmost offset determines the match). -/
def searchOtp (cs : List Char) : Option (List Char) :=
  ((List.range cs.length).find? (otpMatchAt cs)).map (fun i => (cs.drop i).take 6)

/-- Embeds extract_otp of google_utils.py: decode the message text, then
search for six digits enclosed in word boundaries; None when absent. -/
def extract_otp (msg : GmailMsg) : Option String :=
  (searchOtp (extract_text_from_message msg).data).map (fun l => ⟨l⟩)

mutual

/-- A part with mimeType text/plain occurs somewhere in this part tree
(used to state the claims about plain-text parts; not code of the repo). -/
def partHasPlain : MsgPart → Bool
  | .mk m _ ps =>
    decide (m = some "text/plain") ||
    (match ps with
     | some l => partsHasPlain l
     | none => false)
termination_by p => sizeOf p

def partsHasPlain : List MsgPart → Bool
  | [] => false
  | p :: r => partHasPlain p || partsHasPlain r
termination_by l => sizeOf l

end

/-- The message has a text/plain part somewhere in its body structure. -/
def GmailMsg.hasPlainPart (msg : GmailMsg) : Bool :=
  match msg.payload with
  | some p => partHasPlain p
  | none => false

mutual

/-- No part of this part tree carries body data. -/
def partNoData : MsgPart → Bool
  | .mk _ d ps =>
    d.isNone &&
    (match ps with
     | some l => partsNoData l
     | none => true)
termination_by p => sizeOf p

def partsNoData : List MsgPart → Bool
  | [] => true
  | p :: r => partNoData p && partsNoData r
termination_by l => sizeOf l

end

/-- No part of the message carries body data. -/
def GmailMsg.noData (msg : GmailMsg) : Bool :=
  match msg.payload with
  | some p => partNoData p
  | none => true

/-- A failure of get_gmail_service, caught inside get_latest_email:
FileNotFoundError for a missing client-secrets file, or any other exception
raised during authentication. -/
inductive CredFailure : Type where
  | fileNotFound
  | other (msg : String)

/-- An error raised by a Gmail API call after authentication (for example a
transient network failure); such exceptions are not caught by get_latest_email. -/
inductive MailErr : Type where
  | network (msg : String)
  deriving DecidableEq

/-- The Gmail service object: list the message ids matching a query
(latest first, maxResults=1) and fetch a full message by id. -/
structure GmailService : Type where
  listLatest : String → Except MailErr (List String)
  getMessage : String → Except MailErr GmailMsg

/-- The environment of get_latest_email: what get_gmail_service yields. -/
structure MailEnv : Type where
  service : Except CredFailure GmailService

/-- Embeds get_latest_email of google_utils.py. The try block around
get_gmail_service catches FileNotFoundError and every other exception alike
and returns None; later API failures propagate to the caller as raised
exceptions; an empty message list returns None; otherwise the latest message
is fetched and extract_otp applied. (Header fields are only printed.) -/
def get_latest_email (env : MailEnv) (query : String) : Except MailErr (Option String) :=
  match env.service with
  | .error _ => .ok none
  | .ok service =>
    match service.listLatest query with
    | .error e => .error e
    | .ok [] => .ok none
    | .ok (msgId :: _) =>
      match service.getMessage msgId with
      | .error e => .error e
      | .ok msg => .ok (extract_otp msg)

end GoogleUtils

namespace BasePage

/-- The click environment of safe_click: the outcome of the k-th click
attempt when issued with a given effective timeout (a raised exception is
modelled by its text). -/
structure ClickEnv : Type where
  attempt : Nat → Nat → Except String Unit

/-- Python truthiness of the expression timeout or self.default_timeout:
None and 0 both fall back to the default. -/
def pyTimeoutOr (timeout : Option Nat) (dflt : Nat) : Nat :=
  match timeout with
  | none => dflt
  | some t => if t = 0 then dflt else t

/-- Embeds Hitclick of base_page.py: resolve the effective timeout, then
wait for visibility and click with it (collapsed to one attempt outcome). -/
def Hitclick (env : ClickEnv) (defaultTimeout : Nat) (k : Nat) (timeout : Option Nat) :
    Except String Unit :=
  env.attempt k (pyTimeoutOr timeout defaultTimeout)

/-- The retry loop of safe_click: each iteration calls Hitclick with no
timeout argument; the last exception is re-raised when the attempts run out
(raise of a Python None when retries is zero). -/
def safe_click_loop (env : ClickEnv) (dflt : Nat) (k : Nat) (fuel : Nat)
    (last : Option String) : Except (Option String) Unit :=
  match fuel with
  | 0 => .error last
  | fuel' + 1 =>
    match Hitclick env dflt k none with
    | .ok _ => .ok ()
    | .error e => safe_click_loop env dflt (k + 1) fuel' (some e)

/-- Embeds safe_click of base_page.py. The timeout parameter is accepted by
the source signature but never read in the body. -/
def safe_click (env : ClickEnv) (defaultTimeout : Nat) (retries : Nat)
    (timeout : Option Nat) : Except (Option String) Unit :=
  safe_click_loop env defaultTimeout 0 retries none

end BasePage

namespace Conftest

/-- State of the auth storage file results/auth.json: absent, present but
not decodable as a storage state, or present and decodable (the snapshot
number abstracts the serialized session contents). -/
inductive FileState : Type where
  | absent
  | corrupt
  | valid (snapshot : Nat)
  deriving DecidableEq

/-- The auth_path.exists() check of conftest.py sees only presence. -/
def FileState.existsOnDisk : FileState → Bool
  | .absent => false
  | _ => true

/-- Behavior of context.storage_state(path=...): raise, succeed and leave
the exported snapshot on disk, or return without a file on disk (the case
guarded by the final RuntimeError check of create_auth_state). -/
inductive ExportBehavior : Type where
  | raises
  | writes (snapshot : Nat)
  | completesWithoutFile
  deriving DecidableEq

/-- Environment of one create_auth_state invocation. dashboardConfirmed
records whether the post-login dashboard landmark is present when the
storage state is exported; the code never inspects it. -/
structure AuthEnv : Type where
  recreate : Bool
  authFile : FileState
  launchOk : Bool
  gotoOk : Bool
  storageExport : ExportBehavior
  dashboardConfirmed : Bool
  deriving DecidableEq

/-- Exceptions create_auth_state can raise. -/
inductive AuthErr : Type where
  | launchFailure
  | gotoTimeout
  | exportFailure
  | stateFileMissing
  deriving DecidableEq

/-- How one create_auth_state invocation ends. -/
inductive AuthOutcome : Type where
  | returned (path : String)
  | raised (e : AuthErr)
  deriving DecidableEq

/-- Observable result of one create_auth_state invocation: the outcome, the
state of results/auth.json afterwards, whether a storage-state write
happened, and how many fresh bootstrap flows ran. -/
structure AuthRun : Type where
  outcome : AuthOutcome
  fileAfter : FileState
  wrote : Bool
  loginFlows : Nat
  deriving DecidableEq

def AUTH_STATE_FILE : String := "results/auth.json"

/-- Embeds create_auth_state of conftest.py (the active code): reuse the file
when it exists and recreate was not requested; otherwise launch a visible
browser, navigate, sleep for the fixed manual-login delay (the scripted login
steps are commented out in the source), export the storage state
unconditionally, and raise RuntimeError when no file exists afterwards. -/
def create_auth_state (env : AuthEnv) : AuthRun :=
  if env.authFile.existsOnDisk && !env.recreate then
    { outcome := .returned AUTH_STATE_FILE, fileAfter := env.authFile,
      wrote := false, loginFlows := 0 }
  else if !env.launchOk then
    { outcome := .raised .launchFailure, fileAfter := env.authFile,
      wrote := false, loginFlows := 1 }
  else if !env.gotoOk then
    { outcome := .raised .gotoTimeout, fileAfter := env.authFile,
      wrote := false, loginFlows := 1 }
  else
    match env.storageExport with
    | .raises =>
      { outcome := .raised .exportFailure, fileAfter := env.authFile,
        wrote := false, loginFlows := 1 }
    | .completesWithoutFile =>
      { outcome := .raised .stateFileMissing, fileAfter := .absent,
        wrote := false, loginFlows := 1 }
    | .writes snap =>
      { outcome := .returned AUTH_STATE_FILE, fileAfter := .valid snap,
        wrote := true, loginFlows := 1 }

/-- Result of browser.new_context(storage_state=path) in the auth_page
fixture: a ready context from a decodable file, or a raised error for a
corrupt or missing file (the fixture wraps only the later dashboard wait in
a try block, not this construction). -/
inductive ContextResult : Type where
  | ready (snapshot : Nat)
  | raisedDecodeFailure
  | raisedFileMissing
  deriving DecidableEq

/-- The storage-state load performed by auth_page on the path returned by
create_auth_state: the file is consumed wholesale, with no validation by
the fixtures beforehand. -/
def new_context_storage_state : FileState → ContextResult
  | .valid s => .ready s
  | .corrupt => .raisedDecodeFailure
  | .absent => .raisedFileMissing

end Conftest

namespace DashboardPage

open GoogleUtils BasePage

/-- Exceptions terminating NavBarLinks of dashbaord_page.py. -/
inductive LoginErr : Type where
  | emailFieldTimeout
  | emailTypeTimeout
  | continueAttachTimeout
  | continueClickFailure (e : Option String)
  | otpFieldTimeout
  | mailFailure (e : MailErr)
  | otpNotFound
  | missingOtpInputAttr
  deriving DecidableEq

/-- Environment of one NavBarLinks call: whether each waited-for element
appears within its timeout, the click outcomes, and the mailbox state.
otpFieldAppears is indexed by the number of the wait for the OTP input, so
that a retried wait would be observable. -/
structure LoginEnv : Type where
  emailFieldAppears : Bool
  emailTypeOk : Bool
  continueAttaches : Bool
  continueClick : ClickEnv
  otpFieldAppears : Nat → Bool
  mail : MailEnv

/-- Trace of one NavBarLinks call: the exception it raised (none would mean
it returned), the number of page reloads performed, and the number of waits
issued for the OTP input field. -/
structure LoginTrace : Type where
  result : Option LoginErr
  reloads : Nat
  otpWaits : Nat
  deriving DecidableEq

/-- Embeds NavBarLinks of dashbaord_page.py: wait for the email field
(30s), type the email (type_text waits 20s then fills), wait for the
continue control (30s, attached), safe_click it (the 30000 timeout argument
is passed but ignored by safe_click), then ONE wait for the OTP input with a
120s timeout and no reload on timeout, then get_latest_email with query
subject:code (pytest.fail when it yields None); the final step reads the
attribute self.OTP_INPUT, which no class of the page object defines, so a
reached OTP fill raises AttributeError. -/
def NavBarLinks (env : LoginEnv) (email : String) : LoginTrace :=
  if !env.emailFieldAppears then
    { result := some .emailFieldTimeout, reloads := 0, otpWaits := 0 }
  else if !env.emailTypeOk then
    { result := some .emailTypeTimeout, reloads := 0, otpWaits := 0 }
  else if !env.continueAttaches then
    { result := some .continueAttachTimeout, reloads := 0, otpWaits := 0 }
  else
    match safe_click env.continueClick 60000 3 (some 30000) with
    | .error e =>
      { result := some (.continueClickFailure e), reloads := 0, otpWaits := 0 }
    | .ok _ =>
      if !env.otpFieldAppears 0 then
        { result := some .otpFieldTimeout, reloads := 0, otpWaits := 1 }
      else
        match get_latest_email env.mail "subject:code" with
        | .error e => { result := some (.mailFailure e), reloads := 0, otpWaits := 1 }
        | .ok none => { result := some .otpNotFound, reloads := 0, otpWaits := 1 }
        | .ok (some _) =>
          { result := some .missingOtpInputAttr, reloads := 0, otpWaits := 1 }

end DashboardPage

section ConcreteInputs

open GoogleUtils Conftest DashboardPage BasePage

/-- Message whose decoded plain-text body is
Your code is 482913. Expires in 10 minutes. -/
def otpBodyMsg : GmailMsg :=
  ⟨some (.mk (some "text/plain")
    (some "WW91ciBjb2RlIGlzIDQ4MjkxMy4gRXhwaXJlcyBpbiAxMCBtaW51dGVzLg==") none)⟩

/-- Message whose decoded plain-text body is: Order #1234567 shipped. -/
def orderBodyMsg : GmailMsg :=
  ⟨some (.mk (some "text/plain") (some "T3JkZXIgIzEyMzQ1Njcgc2hpcHBlZA==") none)⟩

/-- Simple message with a text/html body decoding to: code 123456. -/
def htmlCodeMsg : GmailMsg :=
  ⟨some (.mk (some "text/html") (some "Y29kZSAxMjM0NTY=") none)⟩

/-- Simple message with a text/html body decoding to:
Your one-time code: 482913. -/
def htmlOtpMsg : GmailMsg :=
  ⟨some (.mk (some "text/html") (some "WW91ciBvbmUtdGltZSBjb2RlOiA0ODI5MTM=") none)⟩

/-- Multipart message whose only text/plain part is nested, but whose first
sibling part carries an empty parts list together with body data decoding to
code 999999 (the nested plain part decodes to code 123456). -/
def preemptMsg : GmailMsg :=
  ⟨some (.mk (some "multipart/mixed") none (some
    [MsgPart.mk (some "text/html") (some "Y29kZSA5OTk5OTk=") (some []),
      MsgPart.mk (some "multipart/alternative") none
        (some [MsgPart.mk (some "text/plain") (some "Y29kZSAxMjM0NTY=") none])]))⟩

/-- Mail environment whose credential file is missing. -/
def envNoCreds : MailEnv := ⟨.error .fileNotFound⟩

/-- An authenticated service with no message matching any query. -/
def svcNoMail : GmailService :=
  ⟨fun _ => .ok [], fun _ => .error (.network "unused")⟩

/-- Mail environment with valid credentials and an empty mailbox. -/
def envNoMail : MailEnv := ⟨.ok svcNoMail⟩

/-- Bootstrap environment where every stage succeeds but the dashboard
landmark never appears. -/
def envDashboardUnconfirmed : AuthEnv :=
  { recreate := false, authFile := .absent, launchOk := true, gotoOk := true,
    storageExport := .writes 7, dashboardConfirmed := false }

/-- Environment with an existing corrupt auth file and no recreate request. -/
def envCorruptReuse : AuthEnv :=
  { recreate := false, authFile := .corrupt, launchOk := true, gotoOk := true,
    storageExport := .writes 3, dashboardConfirmed := true }

/-- Second environment with a corrupt auth file, for witnessing. -/
def envCorruptReuse2 : AuthEnv :=
  { recreate := false, authFile := .corrupt, launchOk := true, gotoOk := false,
    storageExport := .raises, dashboardConfirmed := false }

/-- Environment with an existing valid auth file and no recreate request. -/
def envReuse : AuthEnv :=
  { recreate := false, authFile := .valid 5, launchOk := true, gotoOk := true,
    storageExport := .writes 9, dashboardConfirmed := true }

/-- Environment where goto times out during a fresh bootstrap. -/
def envGotoFails : AuthEnv :=
  { recreate := true, authFile := .valid 5, launchOk := true, gotoOk := false,
    storageExport := .writes 9, dashboardConfirmed := false }

/-- Click environment where every attempt raises. -/
def clickEnvFail : ClickEnv := ⟨fun _ _ => .error "obscured"⟩

/-- Click environment where every attempt succeeds. -/
def clickEnvOk : ClickEnv := ⟨fun _ _ => .ok ()⟩

/-- Login environment where everything up to the OTP-field wait succeeds
and the OTP input never appears. -/
def envOtpTimeout : LoginEnv :=
  { emailFieldAppears := true, emailTypeOk := true, continueAttaches := true,
    continueClick := clickEnvOk, otpFieldAppears := fun _ => false,
    mail := envNoMail }

end ConcreteInputs

section Helpers

open GoogleUtils

/-- Unfolding equation of the well-founded definition extract_text_core. -/
theorem extract_text_core_eq (m d : Option String) (ps : Option (List MsgPart)) :
    extract_text_core (.mk m d ps) =
      match ps with
      | some (q :: l) => scanParts (q :: l)
      | _ =>
        match d with
        | some bd => decodeBody bd
        | none => "" := by
  rw [extract_text_core.eq_def]

/-- A part with a non-empty parts list delegates to the loop over them. -/
theorem extract_text_core_parts (m d : Option String) (q : MsgPart) (l : List MsgPart) :
    extract_text_core (.mk m d (some (q :: l))) = scanParts (q :: l) := by
  rw [extract_text_core_eq]

/-- Unfolding equation of the well-founded definition scanParts. -/
theorem scanParts_eq (p : MsgPart) (rest : List MsgPart) :
    scanParts (p :: rest) =
      if p.mimeType = some "text/plain" ∧ p.data.isSome = true then
        decodeBody (p.data.getD "")
      else
        scanRest p rest := by
  rw [scanParts.eq_def]

theorem scanParts_nil : scanParts [] = "" := by
  rw [scanParts.eq_def]

/-- Unfolding equation of the well-founded definition scanRest. -/
theorem scanRest_eq (p : MsgPart) (rest : List MsgPart) :
    scanRest p rest =
      match p.subparts with
      | some _ =>
        let r := extract_text_core p
        if r = "" then scanParts rest else r
      | none => scanParts rest := by
  rw [scanRest.eq_def]

/-- Unfolding equation of the well-founded definition partHasPlain. -/
theorem partHasPlain_eq (m d : Option String) (ps : Option (List MsgPart)) :
    partHasPlain (.mk m d ps) =
      (decide (m = some "text/plain") ||
        (match ps with
         | some l => partsHasPlain l
         | none => false)) := by
  rw [partHasPlain.eq_def]

/-- Unfolding equation of the well-founded definition partNoData. -/
theorem partNoData_eq (m d : Option String) (ps : Option (List MsgPart)) :
    partNoData (.mk m d ps) =
      (d.isNone &&
        (match ps with
         | some l => partsNoData l
         | none => true)) := by
  rw [partNoData.eq_def]

/-- A part without data anywhere has no data field of its own. -/
theorem partNoData_data (p : MsgPart) (h : partNoData p = true) : p.data = none := by
  obtain ⟨m, d, ps⟩ := p
  rw [partNoData_eq] at h
  rcases d with _ | bd
  · rfl
  · simp at h

/-- A character outside the \w class is in particular not a digit. -/
theorem not_word_not_digit (c : Char) (h : isWordChar c = false) : isDigitChar c = false := by
  simp only [isWordChar, Char.isAlphanum, Bool.or_eq_false_iff] at h
  exact h.1.2

mutual

/-- A part tree carrying no body data anywhere decodes to the empty string. -/
theorem partNoData_text : ∀ (p : MsgPart), partNoData p = true → extract_text_core p = ""
  | .mk m none none, _ => by
    rw [extract_text_core_eq]
  | .mk m (some bd) none, h => by
    rw [partNoData_eq] at h
    simp at h
  | .mk m none (some []), _ => by
    rw [extract_text_core_eq]
  | .mk m (some bd) (some []), h => by
    rw [partNoData_eq] at h
    simp at h
  | .mk m d (some (q :: l)), h => by
    rw [partNoData_eq] at h
    simp only [Bool.and_eq_true] at h
    rw [extract_text_core_eq]
    exact partsNoData_scan (q :: l) h.2
termination_by p => sizeOf p

/-- The part loop over data-free parts yields the empty string. -/
theorem partsNoData_scan : ∀ (l : List MsgPart), partsNoData l = true → scanParts l = ""
  | [], _ => scanParts_nil
  | p :: rest, h => by
    have hp : partNoData p = true := by
      simp only [partsNoData, Bool.and_eq_true] at h
      exact h.1
    have hrest : partsNoData rest = true := by
      simp only [partsNoData, Bool.and_eq_true] at h
      exact h.2
    rw [scanParts_eq, if_neg, scanRest_eq]
    · rcases hsub : p.subparts with _ | l'
      · simpa using partsNoData_scan rest hrest
      · have hcore : extract_text_core p = "" := partNoData_text p hp
        simp only [hsub, hcore, if_pos rfl]
        exact partsNoData_scan rest hrest
    · intro hcond
      rw [partNoData_data p hp] at hcond
      simp at hcond
termination_by l => sizeOf l

end

/-- The exact condition under which the part loop skips a part and moves
on: the part is not text/plain with data, and it either has no parts key or
its recursive extraction yields the empty string. -/
theorem scanParts_skip (pre rest : List MsgPart)
    (h : ∀ p ∈ pre, ¬(p.mimeType = some "text/plain" ∧ p.data.isSome = true) ∧
      (p.subparts = none ∨ extract_text_core p = "")) :
    scanParts (pre ++ rest) = scanParts rest := by
  induction pre with
  | nil => simp
  | cons p pre' ih =>
    have hp := h p (by simp)
    rw [List.cons_append, scanParts_eq, if_neg hp.1, scanRest_eq]
    rcases hsub : p.subparts with _ | l'
    · exact ih (fun q hq => h q (by simp [hq]))
    · rcases hp.2 with hnone | hempty
      · rw [hsub] at hnone
        simp at hnone
      · simp only [hempty, if_pos]
        exact ih (fun q hq => h q (by simp [hq]))

end Helpers

section Claims

open GoogleUtils Conftest BasePage DashboardPage

/-- C1: every code returned by extract_otp is a run of exactly six digit
characters whose neighbouring characters in the decoded body (when present)
are outside the word class, hence non-digits — so a digit run longer than
six never yields a match and a run shorter than six never matches; the body
Your code is 482913. Expires in 10 minutes. yields 482913, and the body
Order #1234567 shipped yields no match. -/
theorem extract_otp_six_digit_word_bounded :
    (∀ (msg : GmailMsg) (code : String), extract_otp msg = some code →
      code.data.length = 6 ∧ code.data.all isDigitChar = true ∧
      ∃ i, code.data = (((extract_text_from_message msg).data.drop i).take 6) ∧
        (i = 0 ∨ ∃ c, (extract_text_from_message msg).data.get? (i - 1) = some c ∧
          isWordChar c = false ∧ isDigitChar c = false) ∧
        (i + 6 = (extract_text_from_message msg).data.length ∨
          ∃ c, (extract_text_from_message msg).data.get? (i + 6) = some c ∧
            isWordChar c = false ∧ isDigitChar c = false)) ∧
    extract_otp otpBodyMsg = some "482913" ∧
    extract_otp orderBodyMsg = none := by
  refine ⟨?_, ?_, ?_⟩
  · intro msg code h
    simp only [extract_otp] at h
    obtain ⟨l, hl, hcode⟩ := Option.map_eq_some'.mp h
    simp only [searchOtp] at hl
    obtain ⟨i, hfind, hli⟩ := Option.map_eq_some'.mp hl
    have hmatch := List.find?_some hfind
    simp only [otpMatchAt, Bool.and_eq_true, decide_eq_true_eq] at hmatch
    obtain ⟨⟨⟨hlen, hdig⟩, hbb⟩, hba⟩ := hmatch
    subst hcode
    set cs := (extract_text_from_message msg).data with hcs
    have hdata : (String.mk l).data = l := rfl
    refine ⟨?_, ?_, i, ?_, ?_, ?_⟩
    · rw [hdata, ← hli]
      simp only [List.length_take, List.length_drop]
      omega
    · rw [hdata, ← hli]
      exact hdig
    · rw [hdata, ← hli]
    · match i with
      | 0 => exact Or.inl rfl
      | j + 1 =>
        right
        have hj : j < cs.length := by omega
        obtain ⟨c, hc⟩ : ∃ c, cs.get? j = some c :=
          ⟨cs.get ⟨j, hj⟩, List.get?_eq_get hj⟩
        simp only [boundaryBefore, hc] at hbb
        have hw : isWordChar c = false := by
          simpa using hbb
        exact ⟨c, by simpa using hc, hw, not_word_not_digit c hw⟩
    · rcases hk : cs.get? (i + 6) with _ | c
      · left
        have := List.get?_eq_none.mp hk
        omega
      · right
        simp only [boundaryAfter, hk] at hba
        have hw : isWordChar c = false := by
          simpa using hba
        exact ⟨c, rfl, hw, not_word_not_digit c hw⟩
  · simp only [otpBodyMsg, extract_otp, extract_text_from_message, extract_text_core_eq]
    decide
  · simp only [orderBodyMsg, extract_otp, extract_text_from_message, extract_text_core_eq]
    decide

/-- Witness for C1 at the concrete message otpBodyMsg and code 482913. -/
theorem extract_otp_six_digit_word_bounded_witness :
    "482913".data.length = 6 ∧ "482913".data.all isDigitChar = true ∧
    ∃ i, "482913".data = (((extract_text_from_message otpBodyMsg).data.drop i).take 6) ∧
      (i = 0 ∨ ∃ c, (extract_text_from_message otpBodyMsg).data.get? (i - 1) = some c ∧
        isWordChar c = false ∧ isDigitChar c = false) ∧
      (i + 6 = (extract_text_from_message otpBodyMsg).data.length ∨
        ∃ c, (extract_text_from_message otpBodyMsg).data.get? (i + 6) = some c ∧
          isWordChar c = false ∧ isDigitChar c = false) :=
  extract_otp_six_digit_word_bounded.1 otpBodyMsg "482913"
    (by simp only [otpBodyMsg, extract_otp, extract_text_from_message, extract_text_core_eq]
        decide)

/-- C9: a simple non-multipart message whose top-level body carries data is
decoded regardless of its MIME type, so extract_otp can return a code from
a message whose only body part is text/html. -/
theorem simple_body_decoded_any_mime :
    (∀ (mime : Option String) (d : String),
      extract_text_from_message ⟨some (.mk mime (some d) none)⟩ = decodeBody d) ∧
    extract_otp htmlOtpMsg = some "482913" := by
  constructor
  · intro mime d
    simp only [extract_text_from_message]
    rw [extract_text_core_eq]
  · simp only [htmlOtpMsg, extract_otp, extract_text_from_message, extract_text_core_eq]
    decide

/-- C4 counterexample: a simple message whose only body part is text/html —
so no text/plain part exists anywhere in its structure — still yields a
code, because the simple-body branch decodes the body regardless of its
MIME type; the claim that such a message returns None is false. -/
theorem extract_otp_code_without_plain_part :
    extract_otp htmlCodeMsg = some "123456" ∧ htmlCodeMsg.hasPlainPart = false := by
  constructor
  · simp only [htmlCodeMsg, extract_otp, extract_text_from_message, extract_text_core_eq]
    decide
  · simp only [htmlCodeMsg, GmailMsg.hasPlainPart, partHasPlain_eq]
    decide

/-- C4 amended: extraction recurses into nested parts — a message whose
only text/plain part (carrying data) sits nested inside another body part
and decodes to a non-empty text is decoded to exactly that text, for any
earlier sibling parts the loop skips (none of them text/plain with data,
and each either without a parts key or recursively decoding to the empty
string) and any later sibling parts; and a message with no body data
anywhere yields None. The side conditions are forced by the code: an
earlier sibling with a parts key (even an empty list) together with body
data preempts the nested plain part, because the recursive call decodes a
simple body regardless of MIME type — demonstrated by the last conjunct. -/
theorem nested_plain_recursion_and_no_data_not_found :
    (∀ (rootMime outerMime : Option String) (pre post : List MsgPart) (d : String),
      (∀ p ∈ pre, ¬(p.mimeType = some "text/plain" ∧ p.data.isSome = true) ∧
        (p.subparts = none ∨ extract_text_core p = "")) →
      decodeBody d ≠ "" →
      extract_text_from_message
        ⟨some (.mk rootMime none (some (pre ++
          [MsgPart.mk outerMime none
            (some [MsgPart.mk (some "text/plain") (some d) none])] ++ post)))⟩ =
        decodeBody d) ∧
    (∀ msg : GmailMsg, msg.noData = true → extract_otp msg = none) ∧
    extract_text_from_message preemptMsg = "code 999999" := by
  refine ⟨?_, ?_, ?_⟩
  · intro rootMime outerMime pre post d h hne
    simp only [extract_text_from_message]
    set outer : MsgPart :=
      MsgPart.mk outerMime none (some [MsgPart.mk (some "text/plain") (some d) none]) with houter
    obtain ⟨q, l, hql⟩ : ∃ q l, pre ++ [outer] ++ post = q :: l := by
      cases pre with
      | nil => exact ⟨_, _, rfl⟩
      | cons a as => exact ⟨_, _, rfl⟩
    rw [hql, extract_text_core_parts, ← hql, List.append_assoc,
      scanParts_skip pre _ h, List.singleton_append,
      scanParts_eq, if_neg (by rw [houter]; simp [MsgPart.data]), scanRest_eq]
    have hcore : extract_text_core outer = decodeBody d := by
      rw [houter, extract_text_core_parts, scanParts_eq,
        if_pos (by simp [MsgPart.mimeType, MsgPart.data])]
      rfl
    have hsub : outer.subparts = some [MsgPart.mk (some "text/plain") (some d) none] := by
      rw [houter]
      rfl
    simp only [hsub, hcore]
    rw [if_neg hne]
  · intro msg h
    obtain ⟨pl⟩ := msg
    cases pl with
    | none => rfl
    | some p =>
      have hp : extract_text_core p = "" :=
        partNoData_text p (by simpa [GmailMsg.noData] using h)
      simp only [extract_otp, extract_text_from_message, hp]
      rfl
  · simp only [preemptMsg, extract_text_from_message, extract_text_core_eq,
      scanParts_eq, scanParts_nil, scanRest_eq, MsgPart.mimeType, MsgPart.data,
      MsgPart.subparts]
    decide

/-- Witness for C4 amended: the nested text/plain part is found and decoded
behind a skipped text/html sibling that carries body data but no parts key. -/
theorem nested_plain_recursion_and_no_data_not_found_witness :
    extract_text_from_message
      ⟨some (.mk (some "multipart/mixed") none (some
        ([MsgPart.mk (some "text/html") (some "PGI-PC9iPg==") none] ++
          [MsgPart.mk (some "multipart/alternative") none
            (some [MsgPart.mk (some "text/plain") (some "Y29kZSAxMjM0NTY=") none])] ++
          [])))⟩ =
      decodeBody "Y29kZSAxMjM0NTY=" :=
  nested_plain_recursion_and_no_data_not_found.1 (some "multipart/mixed")
    (some "multipart/alternative")
    [MsgPart.mk (some "text/html") (some "PGI-PC9iPg==") none] []
    "Y29kZSAxMjM0NTY="
    (by
      intro p hp
      simp only [List.mem_singleton] at hp
      subst hp
      exact ⟨by simp [MsgPart.mimeType], Or.inl rfl⟩)
    (by decide)

/-- C2 counterexample: with an absent auth file and every stage succeeding,
create_auth_state persists a Session State although the dashboard landmark
is never confirmed — the code contains no dashboard-confirmation stage, so
persistence is not equivalent to reaching a dashboard-confirmed success. -/
theorem create_auth_state_persists_without_dashboard :
    (create_auth_state envDashboardUnconfirmed).wrote = true ∧
    envDashboardUnconfirmed.dashboardConfirmed = false ∧
    (create_auth_state envDashboardUnconfirmed).outcome =
      AuthOutcome.returned AUTH_STATE_FILE := by
  refine ⟨rfl, rfl, rfl⟩

/-- C2 amended: a Session State is persisted exactly when the bootstrap
branch runs and launch, navigation and the storage export all succeed —
independently of the dashboard landmark; and whenever the attempt raises,
no Session State is written (the file is left as it was, or absent). -/
theorem create_auth_state_persistence_characterized :
    ∀ env : AuthEnv,
      ((create_auth_state env).wrote = true ↔
        ((env.authFile.existsOnDisk = false ∨ env.recreate = true) ∧
          env.launchOk = true ∧ env.gotoOk = true ∧
          ∃ s, env.storageExport = ExportBehavior.writes s)) ∧
      (∀ e, (create_auth_state env).outcome = AuthOutcome.raised e →
        (create_auth_state env).wrote = false ∧
        ((create_auth_state env).fileAfter = env.authFile ∨
          (create_auth_state env).fileAfter = FileState.absent)) := by
  intro env
  obtain ⟨rec, file, l, g, ex, dash⟩ := env
  cases rec <;> cases l <;> cases g <;> cases file <;> cases ex <;>
    simp [create_auth_state, FileState.existsOnDisk]

/-- Witness for C2 amended at an environment whose navigation times out. -/
theorem create_auth_state_persistence_characterized_witness :
    (create_auth_state envGotoFails).wrote = false ∧
    ((create_auth_state envGotoFails).fileAfter = envGotoFails.authFile ∨
      (create_auth_state envGotoFails).fileAfter = FileState.absent) :=
  (create_auth_state_persistence_characterized envGotoFails).2
    AuthErr.gotoTimeout (by decide)

/-- C3: with an existing auth file and no recreate request the persisted
state path is returned unchanged and no login flow runs — also on a second
invocation against the resulting file state; with the recreate flag the
fresh bootstrap flow runs exactly once. -/
theorem auth_state_reuse_idempotent_and_forced_bootstrap :
    (∀ env : AuthEnv, env.authFile.existsOnDisk = true → env.recreate = false →
      create_auth_state env =
        { outcome := AuthOutcome.returned AUTH_STATE_FILE, fileAfter := env.authFile,
          wrote := false, loginFlows := 0 } ∧
      (create_auth_state
        { env with authFile := (create_auth_state env).fileAfter }).loginFlows = 0) ∧
    (∀ env : AuthEnv, env.recreate = true → (create_auth_state env).loginFlows = 1) := by
  constructor
  · intro env h1 h2
    have hfst : create_auth_state env =
        { outcome := AuthOutcome.returned AUTH_STATE_FILE, fileAfter := env.authFile,
          wrote := false, loginFlows := 0 } := by
      simp [create_auth_state, h1, h2]
    refine ⟨hfst, ?_⟩
    rw [hfst]
    simp [create_auth_state, h1, h2]
  · intro env h
    obtain ⟨rec, file, l, g, ex, dash⟩ := env
    cases h
    cases l <;> cases g <;> cases ex <;> simp [create_auth_state]

/-- Witness for C3 at the environment with a valid persisted state. -/
theorem auth_state_reuse_idempotent_and_forced_bootstrap_witness :
    create_auth_state envReuse =
      { outcome := AuthOutcome.returned AUTH_STATE_FILE, fileAfter := envReuse.authFile,
        wrote := false, loginFlows := 0 } ∧
    (create_auth_state
      { envReuse with authFile := (create_auth_state envReuse).fileAfter }).loginFlows = 0 :=
  auth_state_reuse_idempotent_and_forced_bootstrap.1 envReuse (by decide) (by decide)

/-- C5 counterexample: a missing credential file and an empty mailbox
produce the identical outcome None from get_latest_email — the two failure
modes are not distinguishable by the caller, contrary to the claim that a
ConfigurationError outcome is distinguishable from NotFound. -/
theorem missing_creds_equals_no_mail_outcome :
    get_latest_email envNoCreds "subject:code" = .ok none ∧
    get_latest_email envNoMail "subject:code" = .ok none ∧
    get_latest_email envNoCreds "subject:code" =
      get_latest_email envNoMail "subject:code" := by
  refine ⟨rfl, rfl, rfl⟩

/-- C5 amended: every failure of get_gmail_service — a missing credential
file or any other authentication exception — is caught and collapsed to
None, the same value returned when no message matches the query; only
failures of the API calls made after authentication propagate to the
caller, as raised exceptions. -/
theorem get_latest_email_failure_collapse :
    (∀ (env : MailEnv) (q : String) (e : CredFailure), env.service = .error e →
      get_latest_email env q = .ok none) ∧
    (∀ (env : MailEnv) (q : String) (svc : GmailService), env.service = .ok svc →
      svc.listLatest q = .ok [] → get_latest_email env q = .ok none) ∧
    (∀ (env : MailEnv) (q : String) (svc : GmailService) (e : MailErr),
      env.service = .ok svc → svc.listLatest q = .error e →
      get_latest_email env q = .error e) := by
  refine ⟨?_, ?_, ?_⟩
  · intro env q e h
    simp [get_latest_email, h]
  · intro env q svc h hlist
    simp [get_latest_email, h, hlist]
  · intro env q svc e h hlist
    simp [get_latest_email, h, hlist]

/-- Witness for C5 amended at the missing-credentials environment. -/
theorem get_latest_email_failure_collapse_witness :
    get_latest_email envNoCreds "subject:code" = .ok none :=
  get_latest_email_failure_collapse.1 envNoCreds "subject:code"
    CredFailure.fileNotFound rfl

/-- C6 counterexample: when the single 120-second wait for the OTP input
times out, NavBarLinks raises immediately — zero reloads are performed and
only one wait is issued, contrary to the claimed one reload-and-retry
before failing. -/
theorem otp_wait_timeout_without_reload :
    NavBarLinks envOtpTimeout "user@dmfluxury.com" =
      { result := some LoginErr.otpFieldTimeout, reloads := 0, otpWaits := 1 } := by
  rfl

/-- C6 amended: whenever the stages before the OTP-field wait succeed and
the first wait for the OTP input times out, the attempt terminates at once:
exactly one wait is issued, no page reload happens, and no retry of the
wait takes place. -/
theorem otp_wait_single_attempt_no_retry :
    ∀ (env : LoginEnv) (email : String),
      env.emailFieldAppears = true → env.emailTypeOk = true →
      env.continueAttaches = true →
      safe_click env.continueClick 60000 3 (some 30000) = .ok () →
      env.otpFieldAppears 0 = false →
      NavBarLinks env email =
        { result := some LoginErr.otpFieldTimeout, reloads := 0, otpWaits := 1 } := by
  intro env email h1 h2 h3 hclick h5
  simp [NavBarLinks, h1, h2, h3, hclick, h5]

/-- Witness for C6 amended at the concrete timeout environment. -/
theorem otp_wait_single_attempt_no_retry_witness :
    NavBarLinks envOtpTimeout "qa@dmfluxury.com" =
      { result := some LoginErr.otpFieldTimeout, reloads := 0, otpWaits := 1 } :=
  otp_wait_single_attempt_no_retry envOtpTimeout "qa@dmfluxury.com"
    rfl rfl rfl rfl rfl

/-- C7 counterexample: with an existing but corrupt Session State file and
no recreate request, create_auth_state returns the path with no fresh
bootstrap, and the auth_page context construction then consumes the corrupt
state and raises — the factory performs no content validation and a decode
failure is not treated like an absent file. -/
theorem corrupt_auth_state_reused :
    (create_auth_state envCorruptReuse).outcome = AuthOutcome.returned AUTH_STATE_FILE ∧
    (create_auth_state envCorruptReuse).loginFlows = 0 ∧
    (create_auth_state envCorruptReuse).fileAfter = FileState.corrupt ∧
    new_context_storage_state (create_auth_state envCorruptReuse).fileAfter =
      ContextResult.raisedDecodeFailure := by
  refine ⟨rfl, rfl, rfl, rfl⟩

/-- C7 amended: the factory validates only the presence of the Session
State file; an existing corrupt file is returned as-is, no fresh bootstrap
is triggered, and the decode failure surfaces later, when the browser
context is constructed from the file. -/
theorem auth_state_presence_only_validation :
    ∀ env : AuthEnv, env.authFile = FileState.corrupt → env.recreate = false →
      (create_auth_state env).outcome = AuthOutcome.returned AUTH_STATE_FILE ∧
      (create_auth_state env).loginFlows = 0 ∧
      (create_auth_state env).fileAfter = FileState.corrupt ∧
      new_context_storage_state (create_auth_state env).fileAfter =
        ContextResult.raisedDecodeFailure := by
  intro env h1 h2
  simp [create_auth_state, h1, h2, FileState.existsOnDisk, new_context_storage_state]

/-- Witness for C7 amended at a second corrupt-file environment. -/
theorem auth_state_presence_only_validation_witness :
    (create_auth_state envCorruptReuse2).outcome = AuthOutcome.returned AUTH_STATE_FILE ∧
    (create_auth_state envCorruptReuse2).loginFlows = 0 ∧
    (create_auth_state envCorruptReuse2).fileAfter = FileState.corrupt ∧
    new_context_storage_state (create_auth_state envCorruptReuse2).fileAfter =
      ContextResult.raisedDecodeFailure :=
  auth_state_presence_only_validation envCorruptReuse2 rfl rfl

/-- C8: whenever create_auth_state returns normally, the returned path is
the auth-state path and a file exists there — in the reuse branch because
its guard checked presence, and in the bootstrap branch because the export
wrote the file and the final RuntimeError guard excludes the file-less
case. -/
theorem create_auth_state_return_implies_file :
    ∀ (env : AuthEnv) (path : String),
      (create_auth_state env).outcome = AuthOutcome.returned path →
      path = AUTH_STATE_FILE ∧ (create_auth_state env).fileAfter.existsOnDisk = true := by
  intro env path h
  obtain ⟨rec, file, l, g, ex, dash⟩ := env
  cases rec <;> cases l <;> cases g <;> cases file <;> cases ex <;>
    simp_all [create_auth_state, FileState.existsOnDisk]

/-- Witness for C8 at the reuse environment. -/
theorem create_auth_state_return_implies_file_witness :
    "results/auth.json" = AUTH_STATE_FILE ∧
    (create_auth_state envReuse).fileAfter.existsOnDisk = true :=
  create_auth_state_return_implies_file envReuse "results/auth.json" (by decide)

/-- C10: the timeout argument of safe_click is ignored — the result never
depends on it; each attempt goes through Hitclick with no timeout argument,
hence with the default timeout of the page; and when every attempt raises,
safe_click re-raises the exception of the last attempt. -/
theorem safe_click_timeout_ignored :
    (∀ (env : ClickEnv) (dflt retries : Nat) (t1 t2 : Option Nat),
      safe_click env dflt retries t1 = safe_click env dflt retries t2) ∧
    (∀ (env : ClickEnv) (dflt k : Nat),
      Hitclick env dflt k none = env.attempt k dflt) ∧
    (∀ (env : ClickEnv) (dflt retries : Nat) (t : Option Nat) (f : Nat → String),
      (∀ k, k < retries → env.attempt k dflt = .error (f k)) → 0 < retries →
      safe_click env dflt retries t = .error (some (f (retries - 1)))) := by
  refine ⟨fun _ _ _ _ _ => rfl, fun _ _ _ => rfl, ?_⟩
  intro env dflt retries t f hfail hpos
  have key : ∀ (fuel k : Nat) (last : Option String),
      (∀ j, j < fuel → env.attempt (k + j) dflt = .error (f (k + j))) → 0 < fuel →
      safe_click_loop env dflt k fuel last = .error (some (f (k + fuel - 1))) := by
    intro fuel
    induction fuel with
    | zero => intro k last _ h0; omega
    | succ n ih =>
      intro k last hall _
      have h0 : env.attempt k dflt = .error (f k) := by
        have := hall 0 (by omega)
        simpa using this
      rw [safe_click_loop]
      simp only [Hitclick, pyTimeoutOr, h0]
      cases n with
      | zero =>
        rw [safe_click_loop]
        have hk : k + (0 + 1) - 1 = k := by omega
        rw [hk]
      | succ m =>
        have := ih (k + 1) (some (f k))
          (fun j hj => by
            have := hall (j + 1) (by omega)
            simpa [Nat.add_assoc, Nat.add_comm 1 j] using this)
          (by omega)
        rw [this]
        have harg : k + 1 + (m + 1) - 1 = k + (m + 1 + 1) - 1 := by omega
        rw [harg]
  have := key retries 0 none (fun j hj => by simpa using hfail j hj) hpos
  simpa [safe_click] using this

/-- Witness for C10: three failing attempts end with the last exception. -/
theorem safe_click_timeout_ignored_witness :
    safe_click clickEnvFail 60000 3 (some 30000) = .error (some "obscured") :=
  safe_click_timeout_ignored.2.2 clickEnvFail 60000 3 (some 30000)
    (fun _ => "obscured") (fun _ _ => rfl) (by decide)

end Claims
